import Mathlib

/-!
Shallow embedding of the IDL storage backend found in
src/kanidmd/src/lib/be/idl_xlsx.rs of the kanidm repository, together with
models of the parts that the source leaves as unimplemented stubs; those
model definitions carry doc comments starting with the words Modelled from
the spec and follow the specification text.
-/

/-- Operation errors: the variants of the external kanidm_proto
OperationError enum that the backend source uses, plus TransactionClosed
from the specification's error table (section 7). InvalidEntryID marks a bad
identifier at a conversion boundary; SerdeCborError marks a payload
serialization failure (the spec's EncodingError); SQLiteError marks an
underlying storage failure (the spec's StorageError); TransactionClosed
marks use of a transaction after commit or abort. -/
inductive OperationError where
  | InvalidEntryID
  | SerdeCborError
  | SQLiteError
  | TransactionClosed
  deriving DecidableEq, Repr

/-- Bytes of an opaque serialized entry payload. -/
abbrev Bytes := List Nat

/-- Storage row form from idl_xlsx.rs lines 31 to 35: an id that is a signed
64 bit integer in Rust (modelled as Int; rows produced by the program lie in
the i64 range, taken as a hypothesis where it matters) and opaque data. -/
structure IdXlsxEntry where
  id : Int
  data : Bytes
  deriving DecidableEq, Repr

/-- Raw entry form from the backend interface: an unsigned 64 bit id
(modelled as Nat, below 2 ^ 64 for program values) and opaque data. -/
structure IdRawEntry where
  id : Nat
  data : Bytes
  deriving DecidableEq, Repr

/-- Rust try_into conversion from i64 to u64: succeeds exactly on
non-negative values, returning the same numeric value. -/
def i64_to_u64 (i : Int) : Option Nat :=
  if i < 0 then none else some i.toNat

/-- Rust try_into conversion from u64 to i64: succeeds exactly on values
below 2 ^ 63, returning the same numeric value. -/
def u64_to_i64 (n : Nat) : Option Int :=
  if n < 2 ^ 63 then some (n : Int) else none

/-- Conversion of a storage row into a raw entry, from idl_xlsx.rs lines 37
to 52 (TryFrom IdXlsxEntry for IdRawEntry): an id at most zero is rejected
with InvalidEntryID; otherwise the id passes through try_into, any
conversion failure again mapped to InvalidEntryID. -/
def IdRawEntry.try_from (value : IdXlsxEntry) : Except OperationError IdRawEntry :=
  if value.id ≤ 0 then
    .error .InvalidEntryID
  else
    match i64_to_u64 value.id with
    | none => .error .InvalidEntryID
    | some n => .ok { id := n, data := value.data }

/-- Conversion of a raw entry into a storage row, from idl_xlsx.rs lines 54
to 69 (TryFrom IdRawEntry for IdXlsxEntry): an id equal to zero is rejected
with InvalidEntryID; otherwise the id passes through try_into, any
conversion failure (a value of 2 ^ 63 or more does not fit an i64) again
mapped to InvalidEntryID. -/
def IdXlsxEntry.try_from (value : IdRawEntry) : Except OperationError IdXlsxEntry :=
  if value.id = 0 then
    .error .InvalidEntryID
  else
    match u64_to_i64 value.id with
    | none => .error .InvalidEntryID
    | some i => .ok { id := i, data := value.data }

/-- C5: for every identifier value id with id at most zero, the storage
boundary conversion into an EntryId (the conversion of a storage row into a
raw entry) fails with InvalidEntryID. -/
theorem C5_nonpositive_id_conversion_fails
    (id : Int) (data : Bytes) (h : id ≤ 0) :
    IdRawEntry.try_from { id := id, data := data } = .error .InvalidEntryID := by
  simp [IdRawEntry.try_from, h]

theorem C5_witness :
    (0 : Int) ≤ 0 ∧
      IdRawEntry.try_from { id := (0 : Int), data := [] } = .error .InvalidEntryID :=
  ⟨le_refl 0, C5_nonpositive_id_conversion_fails 0 [] (le_refl 0)⟩

/-- C6 counterexample: the raw entry id 2 ^ 63 is positive, yet its
conversion into a storage row fails with InvalidEntryID (it does not fit a
signed 64 bit integer), so converting in that direction and back cannot
yield the original entry: the claim that every positive id round-trips is
false. -/
theorem C6_counterexample :
    0 < (2 ^ 63 : Nat) ∧
      IdXlsxEntry.try_from { id := 2 ^ 63, data := [] } = .error .InvalidEntryID := by
  refine ⟨by norm_num, ?_⟩
  simp [IdXlsxEntry.try_from, u64_to_i64]

lemma try_from_xlsx_of_pos (i : Int) (d : Bytes) (h : 0 < i) :
    IdRawEntry.try_from { id := i, data := d } = .ok { id := i.toNat, data := d } := by
  unfold IdRawEntry.try_from i64_to_u64
  dsimp only
  rw [if_neg (not_le.mpr h), if_neg (not_lt.mpr (le_of_lt h))]

lemma try_from_raw_of_range (n : Nat) (e : Bytes) (h0 : n ≠ 0) (h1 : n < 2 ^ 63) :
    IdXlsxEntry.try_from { id := n, data := e } = .ok { id := (n : Int), data := e } := by
  unfold IdXlsxEntry.try_from u64_to_i64
  dsimp only
  rw [if_neg h0, if_pos h1]

/-- C6 amended: for every identifier representable in both forms, that is
positive and below 2 ^ 63, the boundary conversion between the storage row
form and the raw entry form round-trips losslessly in either direction,
yielding the original id and data. -/
theorem C6_roundtrip_in_range
    (i : Int) (n : Nat) (d e : Bytes)
    (hi : 0 < i) (hitop : i < 2 ^ 63) (hn : 0 < n) (hntop : n < 2 ^ 63) :
    (IdRawEntry.try_from { id := i, data := d }).bind IdXlsxEntry.try_from
        = .ok { id := i, data := d } ∧
      (IdXlsxEntry.try_from { id := n, data := e }).bind IdRawEntry.try_from
        = .ok { id := n, data := e } := by
  constructor
  · rw [try_from_xlsx_of_pos i d hi]
    show IdXlsxEntry.try_from { id := i.toNat, data := d } = _
    rw [try_from_raw_of_range i.toNat d (by omega) (by omega)]
    have : ((i.toNat : Nat) : Int) = i := Int.toNat_of_nonneg (le_of_lt hi)
    rw [this]
  · rw [try_from_raw_of_range n e (Nat.pos_iff_ne_zero.mp hn) hntop]
    show IdRawEntry.try_from { id := (n : Int), data := e } = _
    rw [try_from_xlsx_of_pos (n : Int) e (by exact_mod_cast hn)]
    have : ((n : Int)).toNat = n := Int.toNat_natCast n
    rw [this]

theorem C6_roundtrip_witness :
    (IdRawEntry.try_from { id := (1 : Int), data := [42] }).bind IdXlsxEntry.try_from
        = .ok { id := (1 : Int), data := [42] } ∧
      (IdXlsxEntry.try_from { id := (1 : Nat), data := [7] }).bind IdRawEntry.try_from
        = .ok { id := (1 : Nat), data := [7] } :=
  C6_roundtrip_in_range 1 1 [42] [7] (by norm_num) (by norm_num) (by norm_num)
    (by norm_num)

/-- IDLBitRange, the compressed bitmap set of entry identifiers, modelled by
its member list; the spec fixes that two bitmap sets are equal exactly when
their member sets are, so only membership matters for the properties here. -/
abbrev IDLBitRange := List Nat

/-- Intersection of two bitmap sets: the members of the first that also
belong to the second. -/
def idl_inter (a b : IDLBitRange) : IDLBitRange :=
  a.filter (fun x => decide (x ∈ b))

/-- IDL candidate set type from the be module interface, as matched in
get_identry_raw (idl_xlsx.rs lines 107 to 114): the ALLIDS sentinel, or a
concrete set tagged Indexed, Partial or PartialThreshold. -/
inductive IDL where
  | ALLIDS
  | Indexed (s : IDLBitRange)
  | Partial (s : IDLBitRange)
  | PartialThreshold (s : IDLBitRange)
  deriving DecidableEq, Repr

/-- Test for the Indexed tag. -/
def IDL.isIndexed : IDL → Bool
  | .Indexed _ => true
  | _ => false

/-- Test for the Partial or PartialThreshold tags. -/
def IDL.isConcretePartial : IDL → Bool
  | .Partial _ => true
  | .PartialThreshold _ => true
  | _ => false

/-- Member set of an IDL; empty for the ALLIDS sentinel, which carries no
concrete set. -/
def IDL.set : IDL → IDLBitRange
  | .ALLIDS => []
  | .Indexed s => s
  | .Partial s => s
  | .PartialThreshold s => s

/-- Modelled from the spec: the intersection (AND) combination of two IDL
candidate sets (spec section 4.3); the combination logic is not part of the
backend source file, which only declares and matches the IDL variants. Both
operands Indexed gives Indexed of the intersection; either operand ALLIDS
gives the other operand unchanged; every other case gives the intersection
tagged Partial. -/
def IDL.and : IDL → IDL → IDL
  | .ALLIDS, b => b
  | a, .ALLIDS => a
  | .Indexed a, .Indexed b => .Indexed (idl_inter a b)
  | .Indexed a, .Partial b => .Partial (idl_inter a b)
  | .Indexed a, .PartialThreshold b => .Partial (idl_inter a b)
  | .Partial a, .Indexed b => .Partial (idl_inter a b)
  | .Partial a, .Partial b => .Partial (idl_inter a b)
  | .Partial a, .PartialThreshold b => .Partial (idl_inter a b)
  | .PartialThreshold a, .Indexed b => .Partial (idl_inter a b)
  | .PartialThreshold a, .Partial b => .Partial (idl_inter a b)
  | .PartialThreshold a, .PartialThreshold b => .Partial (idl_inter a b)

/-- C1: for the intersection of two IDL candidate sets: if both operands
are Indexed the result is Indexed of the intersection; if either operand is
ALLIDS the result is the other operand unchanged; in every other case (an
operand Partial or PartialThreshold) the result is the intersection tagged
Partial; in particular intersecting an Indexed set with a Partial set never
yields a result claiming Indexed. -/
theorem C1_idl_and_exactness (a b : IDL) :
    (∀ sa sb, a = .Indexed sa → b = .Indexed sb →
        IDL.and a b = .Indexed (idl_inter sa sb)) ∧
      IDL.and .ALLIDS b = b ∧
      IDL.and a .ALLIDS = a ∧
      (a ≠ .ALLIDS → b ≠ .ALLIDS →
        (a.isConcretePartial = true ∨ b.isConcretePartial = true) →
          IDL.and a b = .Partial (idl_inter a.set b.set)) ∧
      (∀ sa sb, a = .Indexed sa → b = .Partial sb →
          (IDL.and a b).isIndexed = false) := by
  cases a <;> cases b <;>
    simp [IDL.and, IDL.isConcretePartial, IDL.set, IDL.isIndexed]

theorem C1_witness :
    IDL.and (.Indexed [1, 2]) (.Partial [2, 3]) = .Partial [2] := by
  have h := (C1_idl_and_exactness (.Indexed [1, 2]) (.Partial [2, 3])).2.2.2.1
    (by decide) (by decide) (Or.inr (by decide))
  rw [h]
  decide

/-- Index kinds from the value module interface, as the spec names them:
equality, presence and substring indexing strategies. -/
inductive IndexType where
  | Equality
  | Presence
  | SubString
  deriving DecidableEq, Repr

/-- Key of a secondary index entry: attribute name, index kind and
normalized key string. -/
abbrev IndexKey := String × IndexType × String

/-- Modelled from the spec: the logical contents of the backing store that
the unimplemented storage calls of idl_xlsx.rs read and write (spec section
6, persisted state layout): the id2entry table of raw entry records, and
the family of secondary indexes mapping an index key to a bitmap set. -/
structure IdlStoreState where
  id2entry : List IdRawEntry
  indexes : List (IndexKey × IDLBitRange)
  deriving DecidableEq, Repr

/-- Modelled from the spec: get_identry_raw (idl_xlsx.rs lines 102 to 115)
matches its IDL argument exactly as the source does, ALLIDS in one arm and
the three concrete variants in one other arm, but both arm bodies are
unimplemented stubs; the spec contract (section 4.1) fills them in: ALLIDS
returns every live record, a concrete set returns exactly the records whose
identifiers are members, and an identifier with no stored record
contributes nothing rather than raising an error. -/
def get_identry_raw (s : IdlStoreState) (idl : IDL) : List IdRawEntry :=
  match idl with
  | .ALLIDS => s.id2entry
  | .Partial idli => s.id2entry.filter (fun e => decide (e.id ∈ idli))
  | .PartialThreshold idli => s.id2entry.filter (fun e => decide (e.id ∈ idli))
  | .Indexed idli => s.id2entry.filter (fun e => decide (e.id ∈ idli))

/-- Replace or append one raw entry by identifier in the id2entry table. -/
def upsert_entry (l : List IdRawEntry) (e : IdRawEntry) : List IdRawEntry :=
  if l.any (fun x => decide (x.id = e.id)) then
    l.map (fun x => if x.id = e.id then e else x)
  else
    l ++ [e]

/-- Modelled from the spec: write_identries_raw (idl_xlsx.rs lines 254 to
263, unimplemented stub): upsert each record by identifier (section 4.1). -/
def write_identries_raw (s : IdlStoreState) (entries : List IdRawEntry) :
    IdlStoreState :=
  { s with id2entry := entries.foldl upsert_entry s.id2entry }

/-- Modelled from the spec: delete_identry (idl_xlsx.rs lines 265 to 267,
unimplemented stub): remove the record with the given identifier; deleting
an absent id is a no-op (section 4.1). -/
def delete_identry (s : IdlStoreState) (id : Nat) : IdlStoreState :=
  { s with id2entry := s.id2entry.filter (fun x => decide (x.id ≠ id)) }

/-- Modelled from the spec: index lookup get_idl (idl_xlsx.rs lines 126 to
136, unimplemented stub): the stored bitmap set for the index key, when the
key is present. -/
def get_idl (s : IdlStoreState) (attr : String) (itype : IndexType)
    (idx_key : String) : Option IDLBitRange :=
  (s.indexes.find? (fun kv => decide (kv.1 = (attr, itype, idx_key)))).map
    (fun kv => kv.2)

/-- Index write write_idl (idl_xlsx.rs lines 269 to 286): the source tests
the set for emptiness, purging the key in the empty branch and writing the
set in the other; the storage actions themselves are unimplemented stubs
and are modelled from the spec: purge removes the key, write upserts the
key with the given set. -/
def write_idl (s : IdlStoreState) (attr : String) (itype : IndexType)
    (idx_key : String) (idl : IDLBitRange) : IdlStoreState :=
  if idl.isEmpty then
    { s with indexes :=
        s.indexes.filter (fun kv => decide (kv.1 ≠ (attr, itype, idx_key))) }
  else
    { s with indexes :=
        ((attr, itype, idx_key), idl) ::
          s.indexes.filter (fun kv => decide (kv.1 ≠ (attr, itype, idx_key))) }

/-- Write transaction handle (idl_xlsx.rs lines 81 to 84): the committed
flag from the source, and, modelled from the spec's transaction contract,
the snapshot of the durable store taken at open and the buffered working
state that mutations act on until commit. -/
structure IdlXlsxWriteTransaction where
  committed : Bool
  base : IdlStoreState
  work : IdlStoreState
  deriving DecidableEq, Repr

/-- Read transaction handle (idl_xlsx.rs lines 76 to 79): the committed
flag from the source and the snapshot the reads observe. -/
structure IdlXlsxReadTransaction where
  committed : Bool
  base : IdlStoreState
  deriving DecidableEq, Repr

/-- Opening a write transaction on durable store s: not committed, snapshot
and working state both start at s. -/
def openWrite (s : IdlStoreState) : IdlXlsxWriteTransaction :=
  { committed := false, base := s, work := s }

/-- Buffered mutations a write transaction can issue. -/
inductive WriteOp where
  | writeEntries (entries : List IdRawEntry)
  | deleteEntry (id : Nat)
  | writeIdl (attr : String) (itype : IndexType) (idx_key : String)
      (idl : IDLBitRange)
  deriving DecidableEq, Repr

/-- Effect of one buffered mutation on a store state. -/
def WriteOp.apply (op : WriteOp) (s : IdlStoreState) : IdlStoreState :=
  match op with
  | .writeEntries entries => write_identries_raw s entries
  | .deleteEntry id => delete_identry s id
  | .writeIdl attr itype idx_key idl => write_idl s attr itype idx_key idl

/-- One mutation issued through a write transaction: buffered into the
working state; the snapshot and the committed flag are untouched. -/
def IdlXlsxWriteTransaction.issue (t : IdlXlsxWriteTransaction) (op : WriteOp) :
    IdlXlsxWriteTransaction :=
  { t with work := op.apply t.work }

/-- A list of mutations issued in order through a write transaction. -/
def IdlXlsxWriteTransaction.issueAll (t : IdlXlsxWriteTransaction)
    (ops : List WriteOp) : IdlXlsxWriteTransaction :=
  ops.foldl IdlXlsxWriteTransaction.issue t

/-- Drop of a write transaction (idl_xlsx.rs lines 209 to 217): when the
committed flag is false the buffered work is rolled back and the durable
store stays at the snapshot; when the flag is true drop does nothing and
the durable store is what commit installed. The function returns the
durable store after the drop. -/
def IdlXlsxWriteTransaction.dropTxn (t : IdlXlsxWriteTransaction) :
    IdlStoreState :=
  if t.committed then t.work else t.base

/-- Drop-time test shared by the two Drop impls in the source (idl_xlsx.rs
lines 187 to 195 and 209 to 217): the rollback body runs exactly when the
committed flag is false. -/
def dropRollbackRuns (committed : Bool) : Bool :=
  !committed

/-- Commit (idl_xlsx.rs lines 224 to 232): the source asserts the flag is
not yet set, sets committed to true, and then performs the durable apply,
an unimplemented stub modelled from the spec as installing the buffered
working state; the applyOk argument abstracts whether that apply step
succeeds, a failure surfacing as the source's SQLiteError (the spec's
StorageError). The flag is set before the apply, so the returned handle is
committed in both outcomes. -/
def IdlXlsxWriteTransaction.commit (t : IdlXlsxWriteTransaction)
    (applyOk : Bool) : IdlXlsxWriteTransaction × Except OperationError IdlStoreState :=
  let t2 := { t with committed := true }
  (t2, if applyOk then .ok t2.work else .error .SQLiteError)

lemma issueAll_committed (t : IdlXlsxWriteTransaction) (ops : List WriteOp) :
    (t.issueAll ops).committed = t.committed := by
  induction ops generalizing t with
  | nil => rfl
  | cons op ops ih =>
    show ((t.issue op).issueAll ops).committed = t.committed
    rw [ih]
    rfl

lemma issueAll_base (t : IdlXlsxWriteTransaction) (ops : List WriteOp) :
    (t.issueAll ops).base = t.base := by
  induction ops generalizing t with
  | nil => rfl
  | cons op ops ih =>
    show ((t.issue op).issueAll ops).base = t.base
    rw [ih]
    rfl

/-- C2: a write transaction dropped without an explicit commit call is an
abort: whatever mutations were issued, the buffered changes are discarded
and the durable store afterward is exactly the pre-transaction state, so a
get over ALLIDS returns the same record set as before the transaction
opened. -/
theorem C2_drop_without_commit_aborts (s : IdlStoreState) (ops : List WriteOp) :
    ((openWrite s).issueAll ops).committed = false ∧
      ((openWrite s).issueAll ops).dropTxn = s ∧
      get_identry_raw ((openWrite s).issueAll ops).dropTxn .ALLIDS
        = get_identry_raw s .ALLIDS := by
  have hc : ((openWrite s).issueAll ops).committed = false := by
    rw [issueAll_committed]
    rfl
  have hb : ((openWrite s).issueAll ops).base = s := by
    rw [issueAll_base]
    rfl
  have hd : ((openWrite s).issueAll ops).dropTxn = s := by
    rw [IdlXlsxWriteTransaction.dropTxn, hc, hb]
    rfl
  exact ⟨hc, hd, by rw [hd]⟩

/-- C9: for both the read and the write transaction handle the drop-time
rollback runs exactly when the committed flag is false, and commit sets the
flag to true before performing the durable apply, so once commit has begun
dropping the handle performs no rollback even when the apply step itself
fails. -/
theorem C9_commit_flag_discipline (t : IdlXlsxWriteTransaction)
    (r : IdlXlsxReadTransaction) (applyOk : Bool) :
    (dropRollbackRuns t.committed = true ↔ t.committed = false) ∧
      (dropRollbackRuns r.committed = true ↔ r.committed = false) ∧
      (t.commit applyOk).1.committed = true ∧
      dropRollbackRuns (t.commit applyOk).1.committed = false ∧
      (applyOk = false →
        (t.commit applyOk).2 = .error .SQLiteError ∧
          dropRollbackRuns (t.commit applyOk).1.committed = false) := by
  refine ⟨?_, ?_, rfl, rfl, ?_⟩
  · cases h : t.committed <;> simp [dropRollbackRuns]
  · cases h : r.committed <;> simp [dropRollbackRuns]
  · intro h
    subst h
    exact ⟨rfl, rfl⟩

/-- Transaction phase from spec section 4.4: Open, then terminally
Committed or Aborted. -/
inductive TxnPhase where
  | Open
  | Committed
  | Aborted
  deriving DecidableEq, Repr

/-- Modelled from the spec: the transaction lifecycle state machine of
section 4.4. In the source the commit body is an unimplemented stub and the
handle is consumed by commit, so the single-shot rule and use after abort
are modelled from the spec's words: any operation on a transaction that is
no longer Open fails with TransactionClosed. -/
structure ModelTxn where
  phase : TxnPhase
  work : IdlStoreState
  deriving DecidableEq, Repr

/-- Modelled from the spec: commit on the lifecycle machine: only an Open
transaction commits, moving to Committed and yielding its buffered state; a
Committed or Aborted one fails with TransactionClosed. -/
def ModelTxn.commit (t : ModelTxn) : ModelTxn × Except OperationError IdlStoreState :=
  match t.phase with
  | .Open => ({ t with phase := .Committed }, .ok t.work)
  | .Committed => (t, .error .TransactionClosed)
  | .Aborted => (t, .error .TransactionClosed)

/-- Modelled from the spec: abort moves any transaction to the terminal
Aborted phase. -/
def ModelTxn.abort (t : ModelTxn) : ModelTxn :=
  { t with phase := .Aborted }

/-- Modelled from the spec: a mutation issued through the lifecycle
machine fails with TransactionClosed unless the transaction is Open. -/
def ModelTxn.issue (t : ModelTxn) (op : WriteOp) : Except OperationError ModelTxn :=
  match t.phase with
  | .Open => .ok { t with work := op.apply t.work }
  | .Committed => .error .TransactionClosed
  | .Aborted => .error .TransactionClosed

/-- C3: commit on a write transaction is single-shot: after a first commit
of an open transaction a second commit fails with TransactionClosed, and
any further operation on a transaction that has been committed or aborted
likewise fails with TransactionClosed; every case is a returned error, so
nothing panics and nothing silently succeeds. -/
theorem C3_commit_single_shot (t : ModelTxn) (op : WriteOp)
    (h : t.phase = .Open) :
    (t.commit).1.commit.2 = .error .TransactionClosed ∧
      (t.commit).1.issue op = .error .TransactionClosed ∧
      (t.abort).issue op = .error .TransactionClosed ∧
      (t.abort).commit.2 = .error .TransactionClosed := by
  cases t with
  | mk phase work =>
    dsimp at h
    subst h
    exact ⟨rfl, rfl, rfl, rfl⟩

theorem C3_witness :
    (((⟨.Open, ⟨[], []⟩⟩ : ModelTxn).commit).1.commit.2
        = .error .TransactionClosed) ∧
      ((⟨.Open, ⟨[], []⟩⟩ : ModelTxn).commit).1.issue (.deleteEntry 1)
        = .error .TransactionClosed ∧
      ((⟨.Open, ⟨[], []⟩⟩ : ModelTxn).abort).issue (.deleteEntry 1)
        = .error .TransactionClosed ∧
      ((⟨.Open, ⟨[], []⟩⟩ : ModelTxn).abort).commit.2
        = .error .TransactionClosed :=
  C3_commit_single_shot ⟨.Open, ⟨[], []⟩⟩ (.deleteEntry 1) rfl

/-- C4: writing an empty bitmap set for a key purges the key from the
index rather than storing an empty entry: the subsequent lookup of that key
returns none, not an empty set; and write_idl preserves the invariant that
no index key maps to an empty set, so index storage never retains one. -/
theorem C4_write_idl_empty_purges
    (s : IdlStoreState) (attr : String) (itype : IndexType) (idx_key : String)
    (idl : IDLBitRange)
    (hinv : ∀ kv ∈ s.indexes, kv.2 ≠ ([] : IDLBitRange)) :
    get_idl (write_idl s attr itype idx_key []) attr itype idx_key = none ∧
      ∀ kv ∈ (write_idl s attr itype idx_key idl).indexes,
        kv.2 ≠ ([] : IDLBitRange) := by
  constructor
  · rw [write_idl]
    simp only [List.isEmpty_nil, if_pos]
    rw [get_idl]
    have hnone :
        (s.indexes.filter
            (fun kv => decide (kv.1 ≠ (attr, itype, idx_key)))).find?
          (fun kv => decide (kv.1 = (attr, itype, idx_key))) = none := by
      rw [List.find?_eq_none]
      intro kv hkv
      have := (List.mem_filter.mp hkv).2
      simp at this ⊢
      exact this
    simp only at hnone ⊢
    rw [hnone]
    rfl
  · intro kv hkv
    rw [write_idl] at hkv
    by_cases hempty : idl.isEmpty
    · rw [if_pos hempty] at hkv
      simp only at hkv
      exact hinv kv (List.mem_filter.mp hkv).1
    · rw [if_neg hempty] at hkv
      simp only [List.mem_cons] at hkv
      rcases hkv with hkv | hkv
      · subst hkv
        simp only
        intro hbad
        rw [hbad] at hempty
        exact hempty rfl
      · exact hinv kv (List.mem_filter.mp hkv).1

/-- A concrete one key index store used by the C4 witness. -/
def sample_index_store : IdlStoreState :=
  ⟨[], [(("name", IndexType.Equality, "alice"), [1])]⟩

theorem C4_witness :
    (∀ kv ∈ sample_index_store.indexes, kv.2 ≠ ([] : IDLBitRange)) ∧
      get_idl (write_idl sample_index_store "name" .Equality "alice" [])
          "name" .Equality "alice" = none := by
  constructor
  · decide
  · exact (C4_write_idl_empty_purges sample_index_store "name" .Equality "alice"
      [] (by decide)).1

/-- C7: entry retrieval over an IDL: the ALLIDS sentinel returns every live
record; a concrete set of any tag (Indexed, Partial or PartialThreshold)
returns exactly the records whose identifiers are members of the set, so an
identifier without a stored record contributes nothing and raises no
error. -/
theorem C7_get_identry_raw_membership (s : IdlStoreState) (l : IDLBitRange) :
    get_identry_raw s .ALLIDS = s.id2entry ∧
      (∀ e, e ∈ get_identry_raw s (.Indexed l) ↔ e ∈ s.id2entry ∧ e.id ∈ l) ∧
      (∀ e, e ∈ get_identry_raw s (.Partial l) ↔ e ∈ s.id2entry ∧ e.id ∈ l) ∧
      (∀ e, e ∈ get_identry_raw s (.PartialThreshold l) ↔
          e ∈ s.id2entry ∧ e.id ∈ l) := by
  refine ⟨rfl, ?_, ?_, ?_⟩ <;>
    · intro e
      simp [get_identry_raw, List.mem_filter]

/-- Abstracted external serializer outcome feeding write_identry: the
encoding layer either produces payload bytes or fails. -/
abbrev SerResult := Option Bytes

/-- Serialization boundary of write_identry (idl_xlsx.rs lines 238 to 252):
the source serializes the entry through the external serde_cbor encoder
(abstracted here as a SerResult argument), maps any failure to
SerdeCborError and propagates it with the question mark operator; on
success it hands the single raw entry to write_identries_raw, an
unimplemented stub modelled from the spec as an upsert. -/
def write_identry (s : IdlStoreState) (id : Nat) (ser : SerResult) :
    Except OperationError IdlStoreState :=
  match ser with
  | none => .error .SerdeCborError
  | some data => .ok (write_identries_raw s [{ id := id, data := data }])

/-- C8: when serialization of the entry payload fails during a write, the
write fails with SerdeCborError (the spec's EncodingError), an error
distinct from the storage failure SQLiteError (the spec's StorageError),
and the failure is the returned result of the call, never a silent
success. -/
theorem C8_serialization_failure_propagates (s : IdlStoreState) (id : Nat) :
    write_identry s id none = .error .SerdeCborError ∧
      OperationError.SerdeCborError ≠ OperationError.SQLiteError ∧
      ∀ st, write_identry s id none ≠ .ok st := by
  refine ⟨rfl, by decide, ?_⟩
  intro st h
  rw [write_identry] at h
  exact Except.noConfusion h

/-- Whether an Except value is a success. -/
def exceptOk {ε α : Type} : Except ε α → Bool
  | .ok _ => true
  | .error _ => false

lemma mapM_not_ok_of_mem {α : Type}
    (f : IdRawEntry → Except OperationError α) (l : List IdRawEntry)
    (e : IdRawEntry) (he : e ∈ l) (herr : exceptOk (f e) = false) :
    exceptOk (l.mapM f) = false := by
  induction l with
  | nil => cases he
  | cons a l ih =>
    rw [List.mapM_cons]
    rcases List.mem_cons.mp he with h | h
    · subst h
      cases hfa : f e with
      | error err => simp [Bind.bind, Except.bind, hfa, exceptOk]
      | ok b =>
        rw [hfa] at herr
        simp [exceptOk] at herr
    · cases hfa : f a with
      | error err => simp [Bind.bind, Except.bind, hfa, exceptOk]
      | ok b =>
        have hrec := ih h
        cases hml : l.mapM f with
        | error err =>
          simp [Bind.bind, Except.bind, hfa, hml, exceptOk, Pure.pure]
        | ok bs =>
          rw [hml] at hrec
          simp [exceptOk] at hrec

/-- Decoded entry retrieval get_identry (idl_xlsx.rs lines 89 to 100): the
raw records for the IDL, each passed through the external into_entry
decoder (abstracted as an argument), collected the way the Rust collect
over Result does: the first decoding error aborts the whole batch. -/
def get_identry {α : Type} (decode : IdRawEntry → Except OperationError α)
    (s : IdlStoreState) (idl : IDL) : Except OperationError (List α) :=
  (get_identry_raw s idl).mapM decode

/-- C10: decoded entry retrieval fails as a whole batch when decoding any
single present raw record fails: unlike an absent identifier, which is
skipped, a present but undecodable record makes get_identry return an
error. -/
theorem C10_get_identry_whole_batch {α : Type}
    (decode : IdRawEntry → Except OperationError α) (s : IdlStoreState)
    (idl : IDL) (e : IdRawEntry) (he : e ∈ get_identry_raw s idl)
    (herr : exceptOk (decode e) = false) :
    exceptOk (get_identry decode s idl) = false := by
  rw [get_identry]
  exact mapM_not_ok_of_mem decode (get_identry_raw s idl) e he herr

/-- A concrete one record store used by the C10 witness. -/
def sample_entry_store : IdlStoreState :=
  ⟨[⟨1, [5]⟩], []⟩

/-- A decoder that fails on every record, standing in for an undecodable
payload. -/
def failing_decode (_e : IdRawEntry) : Except OperationError Unit :=
  .error .SerdeCborError

theorem C10_witness :
    (⟨1, [5]⟩ : IdRawEntry) ∈ get_identry_raw sample_entry_store .ALLIDS ∧
      exceptOk (failing_decode ⟨1, [5]⟩) = false ∧
      exceptOk (get_identry failing_decode sample_entry_store .ALLIDS)
        = false := by
  refine ⟨by decide, rfl, ?_⟩
  exact C10_get_identry_whole_batch failing_decode sample_entry_store .ALLIDS
    ⟨1, [5]⟩ (by decide) rfl
